import Mathlib

/-!
A verification development for the FFM library (src/FFM.js): a single class
holding five personality-trait values, each a number in [0, 1], with a
validated constructor, validated per-trait setters, a Likert conversion
(scale 1-5), a natural-language description, and a compact string export.

Modelling choices.  JavaScript numbers are embedded as `JSNum`: either `nan`
or an exact rational (`num q`).  The decimal literals appearing in the code,
its tests and the claims all denote exact rationals here; on every such input
the exact-rational arithmetic of `(v + 1e-10) * 5` followed by `ceil` lands
strictly inside the same unit interval as the IEEE-754 double computation the
engine performs, so the derived Likert scores coincide with the concrete
values recorded in the repository's own test suite.  A thrown `Error` is
embedded as the `Except.error` case carrying the message string; a setter is
a state-passing function returning the state after the call together with
`Option String` (the message of the raised error, if any), since a throw
before the assignment leaves the object untouched.
-/

/-- A JavaScript number: `nan`, or a finite value given as an exact rational. -/
inductive JSNum where
  | nan : JSNum
  | num : ℚ → JSNum
deriving DecidableEq

/-- JavaScript `x >= c` for a number `x` and a rational constant `c`:
any comparison with NaN is false. -/
def JSNum.jsGe : JSNum → ℚ → Bool
  | .nan, _ => false
  | .num q, c => decide (c ≤ q)

/-- JavaScript `x <= c` for a number `x` and a rational constant `c`:
any comparison with NaN is false. -/
def JSNum.jsLe : JSNum → ℚ → Bool
  | .nan, _ => false
  | .num q, c => decide (q ≤ c)

/-- The property of being a real value inside the closed unit interval
(NaN never has it).  Used to state claims about in- and out-of-range inputs. -/
def JSNum.InUnit : JSNum → Prop
  | .nan => False
  | .num q => 0 ≤ q ∧ q ≤ 1

instance (v : JSNum) : Decidable v.InUnit :=
  match v with
  | .nan => .isFalse fun h => h
  | .num q => inferInstanceAs (Decidable (0 ≤ q ∧ q ≤ 1))

/-- The FFM record: the five stored fields `_openness` .. `_neuroticism`
of the class, in source order. -/
structure FFM where
  _openness : JSNum
  _conscientiousness : JSNum
  _extraversion : JSNum
  _agreeableness : JSNum
  _neuroticism : JSNum
deriving DecidableEq

/-- Static getter `TRAIT_VALUE_MIN` (source line 56). -/
def FFM.TRAIT_VALUE_MIN : ℚ := 0

/-- Static getter `TRAIT_VALUE_MAX` (source line 65). -/
def FFM.TRAIT_VALUE_MAX : ℚ := 1

/-- Static getter `TRAIT_VALUE_AVG` (source line 74). -/
def FFM.TRAIT_VALUE_AVG : ℚ := 1 / 2

/-- Static method `trait_isInRange` (source line 85):
`value >= FFM.TRAIT_VALUE_MIN && value <= FFM.TRAIT_VALUE_MAX`. -/
def FFM.trait_isInRange (value : JSNum) : Bool :=
  value.jsGe FFM.TRAIT_VALUE_MIN && value.jsLe FFM.TRAIT_VALUE_MAX

/-- The generic range-violation message used by the constructor and by
`calculateLikertScore`. -/
def FFM.genericRangeMsg : String :=
  "Personality trait values must be between 0 and 1.0 inclusive."

/-- The constructor (source line 30): rejects the whole construction when any
of the five values is out of range, otherwise stores the five values as
given. -/
def FFM.construct (openness conscientiousness extraversion agreeableness neuroticism : JSNum) :
    Except String FFM :=
  if !(FFM.trait_isInRange openness) || !(FFM.trait_isInRange conscientiousness) ||
      !(FFM.trait_isInRange extraversion) || !(FFM.trait_isInRange agreeableness) ||
      !(FFM.trait_isInRange neuroticism) then
    .error FFM.genericRangeMsg
  else
    .ok ⟨openness, conscientiousness, extraversion, agreeableness, neuroticism⟩

/-- Static method `createAveragePersonality` (source line 47). -/
def FFM.createAveragePersonality : Except String FFM :=
  FFM.construct (.num FFM.TRAIT_VALUE_AVG) (.num FFM.TRAIT_VALUE_AVG)
    (.num FFM.TRAIT_VALUE_AVG) (.num FFM.TRAIT_VALUE_AVG) (.num FFM.TRAIT_VALUE_AVG)

/-- The constant `epsilon = 1e-10` of `calculateLikertScore` (source line 103). -/
def FFM.epsilon : ℚ := 1 / 10000000000

/-- Static method `calculateLikertScore` (source line 98): validate the
range, then `Math.min(Math.max(Math.ceil((value + epsilon) * 5), 1), 5)`.
The inner `nan` branch is unreachable because `trait_isInRange nan = false`;
it returns the same error for totality. -/
def FFM.calculateLikertScore (value : JSNum) : Except String ℤ :=
  if !(FFM.trait_isInRange value) then
    .error FFM.genericRangeMsg
  else
    match value with
    | .nan => .error FFM.genericRangeMsg
    | .num q => .ok (min (max ⌈(q + FFM.epsilon) * 5⌉ 1) 5)

/-- Getter `openness` (source line 114). -/
def FFM.openness (s : FFM) : JSNum := s._openness

/-- Getter `conscientiousness` (source line 138). -/
def FFM.conscientiousness (s : FFM) : JSNum := s._conscientiousness

/-- Getter `extraversion` (source line 162). -/
def FFM.extraversion (s : FFM) : JSNum := s._extraversion

/-- Getter `agreeableness` (source line 186). -/
def FFM.agreeableness (s : FFM) : JSNum := s._agreeableness

/-- Getter `neuroticism` (source line 210). -/
def FFM.neuroticism (s : FFM) : JSNum := s._neuroticism

/-- Setter `openness` (source line 125): the state after the call, paired
with the message of the error raised, if any. -/
def FFM.setOpenness (s : FFM) (value : JSNum) : FFM × Option String :=
  if !(FFM.trait_isInRange value) then
    (s, some "Openness value must be between 0 and 1.0 inclusive.")
  else
    ({ s with _openness := value }, none)

/-- Setter `conscientiousness` (source line 149). -/
def FFM.setConscientiousness (s : FFM) (value : JSNum) : FFM × Option String :=
  if !(FFM.trait_isInRange value) then
    (s, some "Conscientiousness value must be between 0 and 1.0 inclusive.")
  else
    ({ s with _conscientiousness := value }, none)

/-- Setter `extraversion` (source line 173). -/
def FFM.setExtraversion (s : FFM) (value : JSNum) : FFM × Option String :=
  if !(FFM.trait_isInRange value) then
    (s, some "Extraversion value must be between 0 and 1.0 inclusive.")
  else
    ({ s with _extraversion := value }, none)

/-- Setter `agreeableness` (source line 197). -/
def FFM.setAgreeableness (s : FFM) (value : JSNum) : FFM × Option String :=
  if !(FFM.trait_isInRange value) then
    (s, some "Agreeableness value must be between 0 and 1.0 inclusive.")
  else
    ({ s with _agreeableness := value }, none)

/-- Setter `neuroticism` (source line 221). -/
def FFM.setNeuroticism (s : FFM) (value : JSNum) : FFM × Option String :=
  if !(FFM.trait_isInRange value) then
    (s, some "Neuroticism value must be between 0 and 1.0 inclusive.")
  else
    ({ s with _neuroticism := value }, none)

/-- One setter invocation: which trait, with which argument. -/
inductive SetterCall where
  | openness (v : JSNum)
  | conscientiousness (v : JSNum)
  | extraversion (v : JSNum)
  | agreeableness (v : JSNum)
  | neuroticism (v : JSNum)

/-- Dispatch a setter invocation on a state. -/
def applySetter (s : FFM) : SetterCall → FFM × Option String
  | .openness v => s.setOpenness v
  | .conscientiousness v => s.setConscientiousness v
  | .extraversion v => s.setExtraversion v
  | .agreeableness v => s.setAgreeableness v
  | .neuroticism v => s.setNeuroticism v

/-- Run a sequence of setter invocations, keeping the state each call leaves
behind (a rejected call leaves the previous state). -/
def runSetters (s : FFM) : List SetterCall → FFM
  | [] => s
  | op :: ops => runSetters (applySetter s op).1 ops

/-- Reachable states: any state produced by a successful constructor or
`createAveragePersonality` call, followed by any sequence of setter calls,
accepted or rejected. -/
def Reachable (s : FFM) : Prop :=
  ∃ (s₀ : FFM) (ops : List SetterCall),
    ((∃ o c e a n, FFM.construct o c e a n = .ok s₀) ∨
      FFM.createAveragePersonality = .ok s₀) ∧
    s = runSetters s₀ ops

/-- All five stored fields lie in the unit interval. -/
def FFM.Valid (s : FFM) : Prop :=
  s._openness.InUnit ∧ s._conscientiousness.InUnit ∧ s._extraversion.InUnit ∧
    s._agreeableness.InUnit ∧ s._neuroticism.InUnit

/-- Per-trait description used by `describe` (source lines 256-269): adverb
according to the Likert score, followed by the written trait name; an empty
string for a score outside 1-5 (never produced). -/
def traitDescription (score : ℤ) (trait : String) : String :=
  if score = 1 then "not " ++ trait
  else if score = 2 then "slightly " ++ trait
  else if score = 3 then "somewhat " ++ trait
  else if score = 4 then "moderately " ++ trait
  else if score = 5 then "strongly " ++ trait
  else ""

/-- Method `describe` (source line 239): computes each trait's Likert score
(in the source's insertion order: open, conscientious, extraverted,
agreeable, neurotic) and composes the fixed-format sentence.  The
`calculateLikertScore` calls cannot fail on a reachable state, but the
exception is propagated faithfully. -/
def FFM.describe (s : FFM) : Except String String := do
  let so ← FFM.calculateLikertScore s._openness
  let sc ← FFM.calculateLikertScore s._conscientiousness
  let se ← FFM.calculateLikertScore s._extraversion
  let sa ← FFM.calculateLikertScore s._agreeableness
  let sn ← FFM.calculateLikertScore s._neuroticism
  pure ("According to the Five Factor Model this personality is: " ++
    traitDescription so "open" ++ ", " ++ traitDescription sc "conscientious" ++ ", " ++
    traitDescription se "extraverted" ++ ", " ++ traitDescription sa "agreeable" ++ ", and " ++
    traitDescription sn "neurotic" ++ ".")

/-- Fractional digits of `m` padded with leading zeros to `k` digits. -/
def fracDigits (m k : ℕ) : String :=
  let s := toString m
  String.mk (List.replicate (k - s.length) '0') ++ s

/-- The default JavaScript number-to-string conversion (the shortest decimal
that denotes the value), for the rationals with a terminating decimal
expansion that this development feeds it: an integer prints with no decimal
point, otherwise the minimal number of fractional digits is used, so there
are never trailing zeros. -/
def jsRatToString (q : ℚ) : String :=
  if q.den = 1 then toString q.num
  else
    match (List.range 30).find? (fun k => (q * (10 : ℚ) ^ k).den == 1) with
    | some k =>
      let n := (q * (10 : ℚ) ^ k).num
      let sign := if n < 0 then "-" else ""
      let m := n.natAbs
      sign ++ toString (m / 10 ^ k) ++ "." ++ fracDigits (m % 10 ^ k) k
    | none => toString q.num ++ "/" ++ toString q.den

/-- String interpolation of a `JSNum` (JavaScript prints NaN as "NaN"). -/
def jsNumToString : JSNum → String
  | .nan => "NaN"
  | .num q => jsRatToString q

/-- String interpolation of an integer Likert score. -/
def jsIntToString (z : ℤ) : String := toString z

/-- Method `toString` (source line 309): the normalized block is built from
the raw stored values, the Likert block from `calculateLikertScore` (whose
exception, impossible on a reachable state, is propagated), both in the
order O, C, E, A, N. -/
def FFM.toText (s : FFM) : Except String String := do
  let normalized := "O:" ++ jsNumToString s._openness ++ ", C:" ++
    jsNumToString s._conscientiousness ++ ", E:" ++ jsNumToString s._extraversion ++
    ", A:" ++ jsNumToString s._agreeableness ++ ", N:" ++ jsNumToString s._neuroticism
  let lo ← FFM.calculateLikertScore s._openness
  let lc ← FFM.calculateLikertScore s._conscientiousness
  let le ← FFM.calculateLikertScore s._extraversion
  let la ← FFM.calculateLikertScore s._agreeableness
  let ln ← FFM.calculateLikertScore s._neuroticism
  let likert := "O:" ++ jsIntToString lo ++ ", C:" ++ jsIntToString lc ++ ", E:" ++
    jsIntToString le ++ ", A:" ++ jsIntToString la ++ ", N:" ++ jsIntToString ln
  pure ("FFM[Normalized:\x7b" ++ normalized ++ "\x7d, Likert:\x7b" ++ likert ++ "\x7d]")

deriving instance DecidableEq for Except

/-- The Likert algorithm exactly as the specification words it, for comparing
against the implementation: add the fixed epsilon 1e-10 to the value,
multiply by 5, take the ceiling, then clamp the result into [1, 5]. -/
def likertScoreSpec (v : ℚ) : ℤ :=
  let ceiled : ℤ := ⌈(v + 1 / 10000000000) * 5⌉
  if ceiled < 1 then 1 else if 5 < ceiled then 5 else ceiled

/-- The range check agrees with membership in the unit interval. -/
theorem trait_isInRange_iff (v : JSNum) : FFM.trait_isInRange v = true ↔ v.InUnit := by
  cases v with
  | nan => simp [FFM.trait_isInRange, JSNum.jsGe, JSNum.InUnit]
  | num q =>
    simp [FFM.trait_isInRange, JSNum.jsGe, JSNum.jsLe, JSNum.InUnit,
      FFM.TRAIT_VALUE_MIN, FFM.TRAIT_VALUE_MAX]

/-- A construction from five in-range values succeeds and stores them as given. -/
theorem construct_ok {o c e a n : JSNum} (ho : o.InUnit) (hc : c.InUnit)
    (he : e.InUnit) (ha : a.InUnit) (hn : n.InUnit) :
    FFM.construct o c e a n = .ok ⟨o, c, e, a, n⟩ := by
  rw [FFM.construct, if_neg]
  simp [(trait_isInRange_iff o).mpr ho, (trait_isInRange_iff c).mpr hc,
    (trait_isInRange_iff e).mpr he, (trait_isInRange_iff a).mpr ha,
    (trait_isInRange_iff n).mpr hn]

/-- The rejection condition of the constructor is false exactly when all five
range checks pass. -/
theorem or_chain_false (a b c d e : Bool) :
    (!a || !b || !c || !d || !e) = false ↔
      (a = true ∧ b = true ∧ c = true ∧ d = true ∧ e = true) := by
  cases a <;> cases b <;> cases c <;> cases d <;> cases e <;> simp

/-- A construction with any value out of range fails with the generic message. -/
theorem construct_error {o c e a n : JSNum}
    (h : ¬(o.InUnit ∧ c.InUnit ∧ e.InUnit ∧ a.InUnit ∧ n.InUnit)) :
    FFM.construct o c e a n = .error FFM.genericRangeMsg := by
  rw [FFM.construct]
  cases hcond : (!(FFM.trait_isInRange o) || !(FFM.trait_isInRange c) ||
      !(FFM.trait_isInRange e) || !(FFM.trait_isInRange a) ||
      !(FFM.trait_isInRange n)) with
  | true => simp
  | false =>
    exfalso
    obtain ⟨h1, h2, h3, h4, h5⟩ := (or_chain_false _ _ _ _ _).mp hcond
    exact h ⟨(trait_isInRange_iff o).mp h1, (trait_isInRange_iff c).mp h2,
      (trait_isInRange_iff e).mp h3, (trait_isInRange_iff a).mp h4,
      (trait_isInRange_iff n).mp h5⟩

/-- Any state a successful construction produces is valid. -/
theorem valid_of_construct {o c e a n : JSNum} {s : FFM}
    (h : FFM.construct o c e a n = .ok s) : s.Valid := by
  rw [FFM.construct] at h
  split at h
  · exact absurd h (by simp)
  · next hcond =>
    rw [Bool.not_eq_true] at hcond
    obtain ⟨h1, h2, h3, h4, h5⟩ := (or_chain_false _ _ _ _ _).mp hcond
    injection h with h
    subst h
    exact ⟨(trait_isInRange_iff o).mp h1, (trait_isInRange_iff c).mp h2,
      (trait_isInRange_iff e).mp h3, (trait_isInRange_iff a).mp h4,
      (trait_isInRange_iff n).mp h5⟩

/-- A setter that accepts leaves a valid state valid; a setter that rejects
returns the state unchanged. -/
theorem valid_applySetter {s : FFM} (hs : s.Valid) (op : SetterCall) :
    ((applySetter s op).1).Valid := by
  obtain ⟨h1, h2, h3, h4, h5⟩ := hs
  cases op with
  | openness v =>
    rw [applySetter, FFM.setOpenness]
    by_cases hv : FFM.trait_isInRange v = true
    · rw [if_neg (by simp [hv])]
      exact ⟨(trait_isInRange_iff v).mp hv, h2, h3, h4, h5⟩
    · rw [if_pos (by simp [Bool.not_eq_true] at hv ⊢; exact hv)]
      exact ⟨h1, h2, h3, h4, h5⟩
  | conscientiousness v =>
    rw [applySetter, FFM.setConscientiousness]
    by_cases hv : FFM.trait_isInRange v = true
    · rw [if_neg (by simp [hv])]
      exact ⟨h1, (trait_isInRange_iff v).mp hv, h3, h4, h5⟩
    · rw [if_pos (by simp [Bool.not_eq_true] at hv ⊢; exact hv)]
      exact ⟨h1, h2, h3, h4, h5⟩
  | extraversion v =>
    rw [applySetter, FFM.setExtraversion]
    by_cases hv : FFM.trait_isInRange v = true
    · rw [if_neg (by simp [hv])]
      exact ⟨h1, h2, (trait_isInRange_iff v).mp hv, h4, h5⟩
    · rw [if_pos (by simp [Bool.not_eq_true] at hv ⊢; exact hv)]
      exact ⟨h1, h2, h3, h4, h5⟩
  | agreeableness v =>
    rw [applySetter, FFM.setAgreeableness]
    by_cases hv : FFM.trait_isInRange v = true
    · rw [if_neg (by simp [hv])]
      exact ⟨h1, h2, h3, (trait_isInRange_iff v).mp hv, h5⟩
    · rw [if_pos (by simp [Bool.not_eq_true] at hv ⊢; exact hv)]
      exact ⟨h1, h2, h3, h4, h5⟩
  | neuroticism v =>
    rw [applySetter, FFM.setNeuroticism]
    by_cases hv : FFM.trait_isInRange v = true
    · rw [if_neg (by simp [hv])]
      exact ⟨h1, h2, h3, h4, (trait_isInRange_iff v).mp hv⟩
    · rw [if_pos (by simp [Bool.not_eq_true] at hv ⊢; exact hv)]
      exact ⟨h1, h2, h3, h4, h5⟩

/-- Validity is preserved along any sequence of setter calls. -/
theorem valid_runSetters {s : FFM} (hs : s.Valid) (ops : List SetterCall) :
    (runSetters s ops).Valid := by
  induction ops generalizing s with
  | nil => exact hs
  | cons op ops ih => exact ih (valid_applySetter hs op)

/-- Every reachable state is valid. -/
theorem valid_of_reachable {s : FFM} (h : Reachable s) : s.Valid := by
  obtain ⟨s₀, ops, h0, rfl⟩ := h
  refine valid_runSetters ?_ ops
  rcases h0 with ⟨o, c, e, a, n, hok⟩ | hok
  · exact valid_of_construct hok
  · exact valid_of_construct hok

/-- On an in-range rational the Likert conversion returns the clamped
ceiling. -/
theorem calculateLikertScore_ok {q : ℚ} (h0 : 0 ≤ q) (h1 : q ≤ 1) :
    FFM.calculateLikertScore (.num q) = .ok (min (max ⌈(q + FFM.epsilon) * 5⌉ 1) 5) := by
  have hr : FFM.trait_isInRange (.num q) = true :=
    (trait_isInRange_iff _).mpr ⟨h0, h1⟩
  rw [FFM.calculateLikertScore.eq_def, if_neg (by simp [hr])]

/-- On an out-of-range input the Likert conversion fails with the generic
message. -/
theorem calculateLikertScore_error {v : JSNum} (h : ¬ v.InUnit) :
    FFM.calculateLikertScore v = .error FFM.genericRangeMsg := by
  have hr : FFM.trait_isInRange v = false := by
    rw [← Bool.not_eq_true]
    exact fun hc => h ((trait_isInRange_iff v).mp hc)
  rw [FFM.calculateLikertScore.eq_def, if_pos (by simp [hr])]

/-- A value in the unit interval is a rational between 0 and 1. -/
theorem inUnit_exists {v : JSNum} (h : v.InUnit) :
    ∃ q, v = .num q ∧ 0 ≤ q ∧ q ≤ 1 := by
  cases v with
  | nan => exact h.elim
  | num q => exact ⟨q, rfl, h.1, h.2⟩

/-- A value in the unit interval is not NaN. -/
theorem ne_nan_of_inUnit {v : JSNum} (h : v.InUnit) : v ≠ .nan := by
  intro hv
  rw [hv] at h
  exact h

/-- C2: for every reachable FFM object (constructed via the constructor or
createAveragePersonality, followed by any sequence of accepted or rejected
setter calls), each of the five stored fields observed through its getter is
a value between 0.0 and 1.0 inclusive. -/
theorem reachable_fields_in_unit_interval (s : FFM) (h : Reachable s) :
    (∃ q, s.openness = .num q ∧ 0 ≤ q ∧ q ≤ 1) ∧
    (∃ q, s.conscientiousness = .num q ∧ 0 ≤ q ∧ q ≤ 1) ∧
    (∃ q, s.extraversion = .num q ∧ 0 ≤ q ∧ q ≤ 1) ∧
    (∃ q, s.agreeableness = .num q ∧ 0 ≤ q ∧ q ≤ 1) ∧
    (∃ q, s.neuroticism = .num q ∧ 0 ≤ q ∧ q ≤ 1) := by
  obtain ⟨h1, h2, h3, h4, h5⟩ := valid_of_reachable h
  exact ⟨inUnit_exists h1, inUnit_exists h2, inUnit_exists h3,
    inUnit_exists h4, inUnit_exists h5⟩

/-- C2 witness: the average personality is reachable and its openness field
is in range. -/
theorem reachable_fields_in_unit_interval_witness :
    ∃ q, (FFM.mk (.num (1/2)) (.num (1/2)) (.num (1/2)) (.num (1/2))
      (.num (1/2))).openness = .num q ∧ 0 ≤ q ∧ q ≤ 1 :=
  (reachable_fields_in_unit_interval _
    ⟨_, [], Or.inr (by with_unfolding_all decide), rfl⟩).1

/-- C4: a construction with any of the five values out of range fails with
the generic range error and produces no object; a construction from five
in-range values succeeds and every getter returns exactly the value passed
in, with no clamping or rounding. -/
theorem construct_rejects_or_stores_exactly (o c e a n : JSNum) :
    (¬(o.InUnit ∧ c.InUnit ∧ e.InUnit ∧ a.InUnit ∧ n.InUnit) →
      FFM.construct o c e a n = .error FFM.genericRangeMsg) ∧
    ((o.InUnit ∧ c.InUnit ∧ e.InUnit ∧ a.InUnit ∧ n.InUnit) →
      ∃ t, FFM.construct o c e a n = .ok t ∧ t.openness = o ∧
        t.conscientiousness = c ∧ t.extraversion = e ∧ t.agreeableness = a ∧
        t.neuroticism = n) := by
  constructor
  · exact construct_error
  · rintro ⟨ho, hc, he, ha, hn⟩
    exact ⟨_, construct_ok ho hc he ha hn, rfl, rfl, rfl, rfl, rfl⟩

/-- C4 witness: one rejected and one accepted concrete construction. -/
theorem construct_rejects_or_stores_exactly_witness :
    FFM.construct (.num 2) (.num (1/2)) (.num (1/2)) (.num (1/2)) (.num (1/2)) =
      .error FFM.genericRangeMsg ∧
    (∃ t, FFM.construct (.num (1/5)) (.num (2/5)) (.num (3/5)) (.num (4/5)) (.num 1) =
      .ok t ∧ t.openness = .num (1/5) ∧ t.conscientiousness = .num (2/5) ∧
      t.extraversion = .num (3/5) ∧ t.agreeableness = .num (4/5) ∧
      t.neuroticism = .num 1) := by
  constructor
  · exact (construct_rejects_or_stores_exactly _ _ _ _ _).1
      (by norm_num [JSNum.InUnit])
  · exact (construct_rejects_or_stores_exactly _ _ _ _ _).2
      (by norm_num [JSNum.InUnit])

/-- C5: every trait setter, applied to an out-of-range value, raises an
error whose message names the specific trait and leaves the whole object
state unchanged. -/
theorem setters_reject_with_trait_named_message (s : FFM) (v : JSNum)
    (h : ¬ v.InUnit) :
    s.setOpenness v = (s, some "Openness value must be between 0 and 1.0 inclusive.") ∧
    s.setConscientiousness v =
      (s, some "Conscientiousness value must be between 0 and 1.0 inclusive.") ∧
    s.setExtraversion v =
      (s, some "Extraversion value must be between 0 and 1.0 inclusive.") ∧
    s.setAgreeableness v =
      (s, some "Agreeableness value must be between 0 and 1.0 inclusive.") ∧
    s.setNeuroticism v =
      (s, some "Neuroticism value must be between 0 and 1.0 inclusive.") := by
  have hr : FFM.trait_isInRange v = false := by
    rw [← Bool.not_eq_true]
    exact fun hc => h ((trait_isInRange_iff v).mp hc)
  refine ⟨?_, ?_, ?_, ?_, ?_⟩ <;>
    simp [FFM.setOpenness, FFM.setConscientiousness, FFM.setExtraversion,
      FFM.setAgreeableness, FFM.setNeuroticism, hr]

/-- C5 witness: the rejection at a concrete state and value. -/
theorem setters_reject_with_trait_named_message_witness :
    (FFM.mk (.num 0) (.num 0) (.num 0) (.num 0) (.num 0)).setOpenness (.num 2) =
      (FFM.mk (.num 0) (.num 0) (.num 0) (.num 0) (.num 0),
        some "Openness value must be between 0 and 1.0 inclusive.") :=
  (setters_reject_with_trait_named_message _ _ (by norm_num [JSNum.InUnit])).1

/-- C10: an accepted setter call for one trait sets exactly that trait and
leaves the other four stored fields exactly what they were before. -/
theorem setter_changes_only_its_trait (s : FFM) (v : JSNum)
    (hs : s.Valid) (h : v.InUnit) :
    ((s.setOpenness v).1.openness = v ∧
      (s.setOpenness v).1.conscientiousness = s.conscientiousness ∧
      (s.setOpenness v).1.extraversion = s.extraversion ∧
      (s.setOpenness v).1.agreeableness = s.agreeableness ∧
      (s.setOpenness v).1.neuroticism = s.neuroticism) ∧
    ((s.setConscientiousness v).1.conscientiousness = v ∧
      (s.setConscientiousness v).1.openness = s.openness ∧
      (s.setConscientiousness v).1.extraversion = s.extraversion ∧
      (s.setConscientiousness v).1.agreeableness = s.agreeableness ∧
      (s.setConscientiousness v).1.neuroticism = s.neuroticism) ∧
    ((s.setExtraversion v).1.extraversion = v ∧
      (s.setExtraversion v).1.openness = s.openness ∧
      (s.setExtraversion v).1.conscientiousness = s.conscientiousness ∧
      (s.setExtraversion v).1.agreeableness = s.agreeableness ∧
      (s.setExtraversion v).1.neuroticism = s.neuroticism) ∧
    ((s.setAgreeableness v).1.agreeableness = v ∧
      (s.setAgreeableness v).1.openness = s.openness ∧
      (s.setAgreeableness v).1.conscientiousness = s.conscientiousness ∧
      (s.setAgreeableness v).1.extraversion = s.extraversion ∧
      (s.setAgreeableness v).1.neuroticism = s.neuroticism) ∧
    ((s.setNeuroticism v).1.neuroticism = v ∧
      (s.setNeuroticism v).1.openness = s.openness ∧
      (s.setNeuroticism v).1.conscientiousness = s.conscientiousness ∧
      (s.setNeuroticism v).1.extraversion = s.extraversion ∧
      (s.setNeuroticism v).1.agreeableness = s.agreeableness) := by
  have hr : FFM.trait_isInRange v = true := (trait_isInRange_iff v).mpr h
  refine ⟨⟨?_, ?_, ?_, ?_, ?_⟩, ⟨?_, ?_, ?_, ?_, ?_⟩, ⟨?_, ?_, ?_, ?_, ?_⟩,
    ⟨?_, ?_, ?_, ?_, ?_⟩, ⟨?_, ?_, ?_, ?_, ?_⟩⟩ <;>
    simp [FFM.setOpenness, FFM.setConscientiousness, FFM.setExtraversion,
      FFM.setAgreeableness, FFM.setNeuroticism, hr, FFM.openness,
      FFM.conscientiousness, FFM.extraversion, FFM.agreeableness,
      FFM.neuroticism]

/-- C10 witness: the openness setter at a concrete state and value. -/
theorem setter_changes_only_its_trait_witness :
    ((FFM.mk (.num 0) (.num 0) (.num 0) (.num 0) (.num 0)).setOpenness
      (.num 1)).1.conscientiousness =
      (FFM.mk (.num 0) (.num 0) (.num 0) (.num 0) (.num 0)).conscientiousness :=
  (setter_changes_only_its_trait _ _
    (by norm_num [FFM.Valid, JSNum.InUnit]) (by norm_num [JSNum.InUnit])).1.2.1

/-- C9: the range check rejects NaN, hence the Likert conversion, the
constructor (in any argument position) and every setter reject a NaN input
with the range-violation error, and no field of a reachable object is NaN. -/
theorem nan_always_rejected (s : FFM) (h : Reachable s) :
    FFM.trait_isInRange .nan = false ∧
    FFM.calculateLikertScore .nan = .error FFM.genericRangeMsg ∧
    (∀ o c e a n : JSNum, o = .nan ∨ c = .nan ∨ e = .nan ∨ a = .nan ∨ n = .nan →
      FFM.construct o c e a n = .error FFM.genericRangeMsg) ∧
    (∀ t : FFM, t.setOpenness .nan =
      (t, some "Openness value must be between 0 and 1.0 inclusive.")) ∧
    (∀ t : FFM, t.setConscientiousness .nan =
      (t, some "Conscientiousness value must be between 0 and 1.0 inclusive.")) ∧
    (∀ t : FFM, t.setExtraversion .nan =
      (t, some "Extraversion value must be between 0 and 1.0 inclusive.")) ∧
    (∀ t : FFM, t.setAgreeableness .nan =
      (t, some "Agreeableness value must be between 0 and 1.0 inclusive.")) ∧
    (∀ t : FFM, t.setNeuroticism .nan =
      (t, some "Neuroticism value must be between 0 and 1.0 inclusive.")) ∧
    (s.openness ≠ .nan ∧ s.conscientiousness ≠ .nan ∧ s.extraversion ≠ .nan ∧
      s.agreeableness ≠ .nan ∧ s.neuroticism ≠ .nan) := by
  obtain ⟨h1, h2, h3, h4, h5⟩ := valid_of_reachable h
  refine ⟨rfl, calculateLikertScore_error fun hf => hf, ?_,
    fun t => rfl, fun t => rfl, fun t => rfl, fun t => rfl, fun t => rfl,
    ne_nan_of_inUnit h1, ne_nan_of_inUnit h2, ne_nan_of_inUnit h3,
    ne_nan_of_inUnit h4, ne_nan_of_inUnit h5⟩
  intro o c e a n hor
  apply construct_error
  rintro ⟨ho, hc, he, ha, hn⟩
  rcases hor with rfl | rfl | rfl | rfl | rfl
  exacts [ho, hc, he, ha, hn]

/-- C9 witness: the openness field of the reachable average personality is
not NaN. -/
theorem nan_always_rejected_witness :
    (FFM.mk (.num (1/2)) (.num (1/2)) (.num (1/2)) (.num (1/2))
      (.num (1/2))).openness ≠ .nan :=
  (nan_always_rejected _
    ⟨_, [], Or.inr (by with_unfolding_all decide), rfl⟩).2.2.2.2.2.2.2.2.1

/-- C3: on every in-range value the Likert conversion returns exactly the
clamp into [1,5] of the ceiling of (value + 1e-10) * 5, as the specification
words the algorithm; on every out-of-range value it fails with the
range-violation error instead of returning a score. -/
theorem calculateLikertScore_matches_spec (v : JSNum) :
    (∀ q : ℚ, v = .num q → 0 ≤ q → q ≤ 1 →
      FFM.calculateLikertScore v = .ok (likertScoreSpec q)) ∧
    (¬ v.InUnit → FFM.calculateLikertScore v = .error FFM.genericRangeMsg) := by
  constructor
  · rintro q rfl h0 h1
    rw [calculateLikertScore_ok h0 h1]
    congr 1
    have he : (1 : ℚ) / 10000000000 = FFM.epsilon := rfl
    rw [likertScoreSpec, he]
    split_ifs <;> omega
  · exact calculateLikertScore_error

/-- C3 witness: the match at 1/2 and the rejection at NaN. -/
theorem calculateLikertScore_matches_spec_witness :
    FFM.calculateLikertScore (.num (1/2)) = .ok (likertScoreSpec (1/2)) ∧
    FFM.calculateLikertScore .nan = .error FFM.genericRangeMsg :=
  ⟨(calculateLikertScore_matches_spec (.num (1/2))).1 (1/2) rfl (by norm_num)
      (by norm_num),
    (calculateLikertScore_matches_spec .nan).2 fun hf => hf⟩

/-- C8: the Likert conversion is monotonic non-decreasing on its valid
domain. -/
theorem calculateLikertScore_monotone (u v : ℚ) (h0 : 0 ≤ u) (huv : u ≤ v)
    (h1 : v ≤ 1) :
    ∃ su sv : ℤ, FFM.calculateLikertScore (.num u) = .ok su ∧
      FFM.calculateLikertScore (.num v) = .ok sv ∧ su ≤ sv := by
  refine ⟨_, _, calculateLikertScore_ok h0 (huv.trans h1),
    calculateLikertScore_ok (h0.trans huv) h1, ?_⟩
  have hc : ⌈(u + FFM.epsilon) * 5⌉ ≤ ⌈(v + FFM.epsilon) * 5⌉ :=
    Int.ceil_le_ceil (by nlinarith)
  omega

/-- C8 witness: monotonicity at the endpoints 0 and 1. -/
theorem calculateLikertScore_monotone_witness :
    ∃ su sv : ℤ, FFM.calculateLikertScore (.num 0) = .ok su ∧
      FFM.calculateLikertScore (.num 1) = .ok sv ∧ su ≤ sv :=
  calculateLikertScore_monotone 0 1 le_rfl (by norm_num) le_rfl

/-- C1 counterexample: the Likert conversion maps 0.2 to bucket 2, not to
bucket 1 as claimed; the epsilon pushes exact multiples of 0.2 into the next
bucket. -/
theorem likert_fencepost_counterexample :
    FFM.calculateLikertScore (.num 0.2) = .ok 2 ∧
    ¬(FFM.calculateLikertScore (.num 0.2) = .ok 1) := by
  with_unfolding_all decide

/-- C1 amended: the six fenceposts map as 0.0 to 1, 0.2 to 2, 0.4 to 3,
0.6 to 4, 0.8 to 5 and 1.0 to 5; bucket 1 is exactly the in-range values up
to and including 0.2 minus epsilon, and bucket 5 is exactly the half-open
interval from 0.8 minus epsilon (exclusive) to 1.0 (inclusive). -/
theorem likert_fenceposts_amended :
    FFM.calculateLikertScore (.num 0) = .ok 1 ∧
    FFM.calculateLikertScore (.num 0.2) = .ok 2 ∧
    FFM.calculateLikertScore (.num 0.4) = .ok 3 ∧
    FFM.calculateLikertScore (.num 0.6) = .ok 4 ∧
    FFM.calculateLikertScore (.num 0.8) = .ok 5 ∧
    FFM.calculateLikertScore (.num 1) = .ok 5 ∧
    (∀ q : ℚ, 0 ≤ q → q ≤ 1 →
      (FFM.calculateLikertScore (.num q) = .ok 1 ↔ q ≤ 0.2 - FFM.epsilon) ∧
      (FFM.calculateLikertScore (.num q) = .ok 5 ↔ 0.8 - FFM.epsilon < q)) := by
  refine ⟨by with_unfolding_all decide, by with_unfolding_all decide,
    by with_unfolding_all decide, by with_unfolding_all decide,
    by with_unfolding_all decide, by with_unfolding_all decide, ?_⟩
  intro q h0 h1
  rw [calculateLikertScore_ok h0 h1]
  have he : FFM.epsilon = 1 / 10000000000 := rfl
  constructor
  · rw [Except.ok.injEq]
    constructor
    · intro hmin
      have hc : ⌈(q + FFM.epsilon) * 5⌉ ≤ 1 := by omega
      have hle := Int.ceil_le.mp hc
      rw [he] at hle ⊢
      push_cast at hle
      norm_num at hle ⊢
      linarith
    · intro hq
      have hle : (q + FFM.epsilon) * 5 ≤ ((1 : ℤ) : ℚ) := by
        rw [he] at hq ⊢
        push_cast
        norm_num at hq ⊢
        linarith
      have hc := Int.ceil_le.mpr hle
      omega
  · rw [Except.ok.injEq]
    constructor
    · intro hmin
      have hc : (4 : ℤ) < ⌈(q + FFM.epsilon) * 5⌉ := by omega
      have hlt := Int.lt_ceil.mp hc
      rw [he] at hlt ⊢
      push_cast at hlt
      norm_num at hlt ⊢
      linarith
    · intro hq
      have hlt : ((4 : ℤ) : ℚ) < (q + FFM.epsilon) * 5 := by
        rw [he] at hq ⊢
        push_cast
        norm_num at hq ⊢
        linarith
      have hc := Int.lt_ceil.mpr hlt
      omega

/-- C1 amended witness: 0.1 lies in bucket 1. -/
theorem likert_fenceposts_amended_witness :
    FFM.calculateLikertScore (.num 0.1) = .ok 1 :=
  ((likert_fenceposts_amended.2.2.2.2.2.2 0.1 (by norm_num) (by norm_num)).1).mpr
    (by norm_num [FFM.epsilon])

set_option maxRecDepth 100000

/-- C6: describe maps each Likert score to its adverb (1 not, 2 slightly,
3 somewhat, 4 moderately, 5 strongly) and, for the profile
(0.8, 0.4, 0.6, 0.9, 0.2), composes exactly the expected fixed-format
sentence in the fixed trait order. -/
theorem describe_adverbs_and_scenario :
    (∀ t : String, traitDescription 1 t = "not " ++ t) ∧
    (∀ t : String, traitDescription 2 t = "slightly " ++ t) ∧
    (∀ t : String, traitDescription 3 t = "somewhat " ++ t) ∧
    (∀ t : String, traitDescription 4 t = "moderately " ++ t) ∧
    (∀ t : String, traitDescription 5 t = "strongly " ++ t) ∧
    (∃ s, FFM.construct (.num 0.8) (.num 0.4) (.num 0.6) (.num 0.9) (.num 0.2) =
      .ok s ∧ FFM.describe s = .ok ("According to the Five Factor Model this " ++
        "personality is: strongly open, somewhat conscientious, moderately " ++
        "extraverted, strongly agreeable, and slightly neurotic.")) := by
  refine ⟨fun t => rfl, fun t => rfl, fun t => rfl, fun t => rfl, fun t => rfl,
    ⟨⟨.num 0.8, .num 0.4, .num 0.6, .num 0.9, .num 0.2⟩, ?_, ?_⟩⟩ <;>
    with_unfolding_all decide

/-- C7: the compact string export renders the raw values in minimal decimal
form (1 renders as "1", 0.3 as "0.3") and, for the profile
(0.2, 0.4, 0.6, 0.8, 1.0), returns exactly the expected string with both
blocks in the order O, C, E, A, N. -/
theorem toText_minimal_decimal_and_scenario :
    jsRatToString 1 = "1" ∧
    jsRatToString 0.3 = "0.3" ∧
    (∃ s, FFM.construct (.num 0.2) (.num 0.4) (.num 0.6) (.num 0.8) (.num 1) =
      .ok s ∧ FFM.toText s = .ok ("FFM[Normalized:\x7bO:0.2, C:0.4, E:0.6, " ++
        "A:0.8, N:1\x7d, Likert:\x7bO:2, C:3, E:4, A:5, N:5\x7d]")) := by
  refine ⟨?_, ?_, ⟨⟨.num 0.2, .num 0.4, .num 0.6, .num 0.8, .num 1⟩, ?_, ?_⟩⟩ <;>
    with_unfolding_all decide
